import Mathlib

/-!
Formal model of the "Get Fluent Now" translation/feedback/chat core,
shallowly embedded from the JavaScript sources.

The translation manager (`src/js/features/translation.js`, two revisions),
the chat manager (`src/js/features/chat.js`) and the constants/story
utilities (`src/js/utils/constants.js`, `src/js/utils/stories.js`) are
embedded as pure Lean functions.  The external Gemini gateway
(`src/js/api/gemini.js`) is opaque here: it is modelled as a record of
oracle functions returning `Except`, an error being a thrown JS `Error`
carrying its message string.  DOM reads are modelled as explicit inputs,
DOM writes as explicit outputs.  Calls issued to the gateway are recorded
in an explicit trace so that claims about how many requests an operation
makes can be stated.
-/

/-- A whitespace character in the sense of JavaScript `String.trim`. -/
def isJsSpace (c : Char) : Bool :=
  c = ' ' || c = '\t' || c = '\n' || c = '\r'

/-- JavaScript `String.prototype.trim`: strip leading and trailing
whitespace.  (Defined structurally on the character list so that it
evaluates by kernel reduction.) -/
def jsTrim (s : String) : String :=
  String.mk (((s.data.dropWhile isJsSpace).reverse.dropWhile isJsSpace).reverse)

/-- JavaScript truthiness of a nullable string field:
`null`/`undefined` and the empty string are falsy. -/
def optTruthy : Option String → Bool
  | none => false
  | some s => s ≠ ""

theorem optTruthy_some {s : String} : optTruthy (some s) = true ↔ s ≠ "" := by
  simp [optTruthy]

theorem optTruthy_none : optTruthy none = false := rfl

/-- One feedback entry of a sentence-batch rating result
(field names follow `displaySentenceFeedback`); the model may omit the
grade, hence `Option`. -/
structure SentenceFeedbackItem where
  sentenceIndex : Nat
  original : String
  userTranslation : String
  referenceTranslation : String
  grade : Option String
  feedback : String
deriving DecidableEq, Repr

/-- Result of rating a batch of sentence translations
(field names follow `displaySentenceFeedback`). -/
structure SentenceFeedbackResult where
  sentenceFeedback : List SentenceFeedbackItem
  overallFeedback : String
  translatedCount : Nat
  totalSentences : Nat
deriving DecidableEq, Repr

/-- A vocabulary entry of a structured mini lesson (`exampleText` renders
the source field `example`, whose name is reserved in Lean). -/
structure VocabItem where
  word : String
  meaning : String
  exampleText : String
deriving DecidableEq, Repr

/-- A common-mistake entry of a structured mini lesson (`exampleText`
renders the source field `example`). -/
structure MistakeItem where
  mistake : String
  correction : String
  exampleText : String
deriving DecidableEq, Repr

/-- An exercise entry of a structured mini lesson. -/
structure ExerciseItem where
  type : String
  instruction : String
  question : String
  answer : String
  explanation : String
deriving DecidableEq, Repr

/-- A fully structured mini lesson (data model of
`displayStructuredMiniLesson`). -/
structure MiniLesson where
  title : String
  grammarFocus : String
  vocabulary : List VocabItem
  commonMistakes : List MistakeItem
  exercises : List ExerciseItem
deriving DecidableEq, Repr

/-- A lesson is either a structured record or a fallback plain-markdown
string (the two shapes `displayMiniLesson` distinguishes). -/
inductive MiniLessonResult where
  | structured (l : MiniLesson)
  | fallback (text : String)
deriving DecidableEq, Repr

/-- A call issued to the Gemini gateway, recorded for trace-based claims. -/
inductive GeminiCall where
  | translateText (text sourceLanguage targetLanguage : String)
  | rateTranslation (original userText reference sourceLanguage targetLanguage : String)
  | rateSentenceTranslations (sentences userTranslations : List String)
      (sourceLanguage targetLanguage : String)
  | sentenceMiniLesson (userTranslations : List String)
      (sourceLanguage targetLanguage : String)
  | chat (message : String) (context : Option String)
deriving DecidableEq, Repr

/-- The opaque Gemini gateway (`src/js/api/gemini.js` is external to the
embedded core): a record of oracle functions; `.error msg` models a thrown
JS `Error` whose `message` is `msg`. -/
structure GeminiAPI where
  translateText : String → String → String → Except String String
  rateTranslation : String → String → String → String → String → Except String String
  rateSentenceTranslations : List String → List String → String → String →
    Except String SentenceFeedbackResult
  sentenceMiniLesson : List String → String → String → Except String MiniLessonResult
  chat : String → Option String → Except String String

/-- Mutable state of `TranslationManager` (current revision): the three
fields set in its constructor. -/
structure TMState where
  currentStory : Option String
  currentSentences : List String
  referenceTranslation : Option String
deriving DecidableEq, Repr

/-- Result object of a successful `processTranslation`. -/
structure TranslationResult where
  feedback : String
  referenceTranslation : String
  userTranslation : String
deriving DecidableEq, Repr

namespace TranslationManager

/-- `setCurrentStory`: store the story and drop any cached reference
translation. -/
def setCurrentStory (st : TMState) (story : String) : TMState :=
  { st with currentStory := some story, referenceTranslation := none }

/-- `setCurrentSentences`: store the sentences and recompute
`currentStory` as their space-join.  (The cached `referenceTranslation`
is left untouched by this revision of the code.) -/
def setCurrentSentences (st : TMState) (sentences : List String) : TMState :=
  { st with
    currentSentences := sentences
    currentStory := some (String.intercalate " " sentences) }

/-- `clear`: reset all three fields. -/
def clear (_st : TMState) : TMState :=
  { currentStory := none, currentSentences := [], referenceTranslation := none }

/-- `processTranslation(userTranslation, sourceLanguage, targetLanguage)`:
validate inputs, lazily fetch and cache the reference translation, then
request feedback.  Returns the call result, the final manager state, and
the trace of gateway calls issued. -/
def processTranslation (gw : GeminiAPI) (st : TMState)
    (userTranslation sourceLanguage targetLanguage : String) :
    Except String TranslationResult × TMState × List GeminiCall :=
  if ¬ optTruthy st.currentStory then
    (.error "No story available for translation", st, [])
  else if (jsTrim userTranslation).length = 0 then
    (.error "Please enter your translation before submitting", st, [])
  else
    let story := st.currentStory.getD ""
    if ¬ optTruthy st.referenceTranslation then
      match gw.translateText story sourceLanguage targetLanguage with
      | .error e =>
          (.error ("Failed to process translation: " ++ e), st,
            [.translateText story sourceLanguage targetLanguage])
      | .ok ref =>
          let st' := { st with referenceTranslation := some ref }
          match gw.rateTranslation story (jsTrim userTranslation) ref sourceLanguage targetLanguage with
          | .error e =>
              (.error ("Failed to process translation: " ++ e), st',
                [.translateText story sourceLanguage targetLanguage,
                 .rateTranslation story (jsTrim userTranslation) ref sourceLanguage targetLanguage])
          | .ok fb =>
              (.ok ⟨fb, ref, (jsTrim userTranslation)⟩, st',
                [.translateText story sourceLanguage targetLanguage,
                 .rateTranslation story (jsTrim userTranslation) ref sourceLanguage targetLanguage])
    else
      let ref := st.referenceTranslation.getD ""
      match gw.rateTranslation story (jsTrim userTranslation) ref sourceLanguage targetLanguage with
      | .error e =>
          (.error ("Failed to process translation: " ++ e), st,
            [.rateTranslation story (jsTrim userTranslation) ref sourceLanguage targetLanguage])
      | .ok fb =>
          (.ok ⟨fb, ref, (jsTrim userTranslation)⟩, st,
            [.rateTranslation story (jsTrim userTranslation) ref sourceLanguage targetLanguage])

end TranslationManager

/-- Whether a recorded gateway call is a `translateText` request. -/
def isTranslateCall : GeminiCall → Bool
  | .translateText _ _ _ => true
  | _ => false

/-- Number of `translateText` requests in a gateway-call trace. -/
def translateCallCount (trace : List GeminiCall) : Nat :=
  (trace.filter isTranslateCall).length

namespace TranslationManager

theorem processTranslation_cached (gw : GeminiAPI) (st : TMState)
    (u s t : String) (href : optTruthy st.referenceTranslation = true) :
    (processTranslation gw st u s t).2.1 = st ∧
    translateCallCount (processTranslation gw st u s t).2.2 = 0 := by
  unfold processTranslation
  by_cases hstory : optTruthy st.currentStory
  · by_cases hu : (jsTrim u).length = 0
    · simp [hstory, hu, translateCallCount]
    · cases hrate : gw.rateTranslation (st.currentStory.getD "") (jsTrim u)
        (st.referenceTranslation.getD "") s t <;>
        simp [hstory, hu, href, hrate, translateCallCount, isTranslateCall]
  · simp [hstory, translateCallCount]

theorem processTranslation_fetches (gw : GeminiAPI) (st : TMState)
    (u s t r : String)
    (hstory : optTruthy st.currentStory = true)
    (hu : ¬ (jsTrim u).length = 0)
    (href : optTruthy st.referenceTranslation = false)
    (hok : gw.translateText (st.currentStory.getD "") s t = .ok r) :
    (processTranslation gw st u s t).2.1 = { st with referenceTranslation := some r } ∧
    translateCallCount (processTranslation gw st u s t).2.2 = 1 := by
  unfold processTranslation
  cases hrate : gw.rateTranslation (st.currentStory.getD "") (jsTrim u) r s t <;>
    simp [hstory, hu, href, hok, hrate, translateCallCount, isTranslateCall]

end TranslationManager

/-- C1: for a session with a passage set and a non-empty user translation,
two successive `processTranslation` calls on the unchanged passage issue at
most one `translateText` request to the gateway: the first call caches the
reference translation (here the fetch succeeds with a non-blank result, as
the gateway contract guarantees) and the second call reuses the cached
value. -/
theorem C1_processTranslation_memoizes_translate (gw : GeminiAPI) (st : TMState)
    (u₁ u₂ src tgt r : String)
    (hstory : optTruthy st.currentStory = true)
    (hu : ¬ (jsTrim u₁).length = 0)
    (hok : gw.translateText (st.currentStory.getD "") src tgt = .ok r)
    (hr : r ≠ "") :
    translateCallCount (TranslationManager.processTranslation gw st u₁ src tgt).2.2 +
      translateCallCount
        (TranslationManager.processTranslation gw
          (TranslationManager.processTranslation gw st u₁ src tgt).2.1 u₂ src tgt).2.2 ≤ 1 := by
  by_cases href : optTruthy st.referenceTranslation
  · have h₁ := TranslationManager.processTranslation_cached gw st u₁ src tgt href
    have h₂ := TranslationManager.processTranslation_cached gw
      (TranslationManager.processTranslation gw st u₁ src tgt).2.1 u₂ src tgt
      (by rw [h₁.1]; exact href)
    omega
  · have h₁ := TranslationManager.processTranslation_fetches gw st u₁ src tgt r hstory hu
      (by simpa using href) hok
    have h₂ := TranslationManager.processTranslation_cached gw
      (TranslationManager.processTranslation gw st u₁ src tgt).2.1 u₂ src tgt
      (by rw [h₁.1]; exact optTruthy_some.mpr hr)
    omega

/-- A concrete gateway on which every request succeeds, used to exercise
the model on closed inputs. -/
def demoGateway : GeminiAPI :=
  { translateText := fun _ _ _ => .ok "The cat sleeps."
    rateTranslation := fun _ _ _ _ _ => .ok "Good work"
    rateSentenceTranslations := fun sentences userTranslations _ _ =>
      .ok ⟨[], "ok", (userTranslations.filter (fun u => u ≠ "")).length, sentences.length⟩
    sentenceMiniLesson := fun _ _ _ => .ok (.fallback "Practice the articles.")
    chat := fun _ _ => .ok "Hello!" }

/-- A concrete gateway whose reference fetch succeeds but whose other
requests fail, used to exercise the failure paths on closed inputs. -/
def feedbackFailsGateway : GeminiAPI :=
  { translateText := fun _ _ _ => .ok "A reference."
    rateTranslation := fun _ _ _ _ _ => .error "boom"
    rateSentenceTranslations := fun _ _ _ _ => .error "boom"
    sentenceMiniLesson := fun _ _ _ => .error "boom"
    chat := fun _ _ => .error "boom" }

/-- Witness for C1 at a concrete session and gateway. -/
theorem C1_witness :
    translateCallCount
      (TranslationManager.processTranslation demoGateway
        ⟨some "El gato duerme.", [], none⟩ "The cat sleeps!" "Spanish" "English").2.2 +
      translateCallCount
        (TranslationManager.processTranslation demoGateway
          (TranslationManager.processTranslation demoGateway
            ⟨some "El gato duerme.", [], none⟩ "The cat sleeps!" "Spanish" "English").2.1
          "A cat sleeps." "Spanish" "English").2.2 ≤ 1 :=
  C1_processTranslation_memoizes_translate _ _ _ _ _ _ _
    (by decide) (by decide) rfl (by decide)

/-- C2 counterexample: `setCurrentSentences` replaces the passage but does
not clear a previously cached `referenceTranslation`. -/
theorem C2_counterexample :
    (TranslationManager.setCurrentSentences
        ⟨some "Un cuento viejo.", [], some "An old tale."⟩
        ["Una frase nueva."]).currentStory ≠
      (⟨some "Un cuento viejo.", [], some "An old tale."⟩ : TMState).currentStory ∧
    (TranslationManager.setCurrentSentences
        ⟨some "Un cuento viejo.", [], some "An old tale."⟩
        ["Una frase nueva."]).referenceTranslation = some "An old tale." := by
  constructor
  · decide
  · rfl

/-- C2 (amended): `setCurrentStory` clears the cached reference
translation, but `setCurrentSentences` leaves it untouched while replacing
the passage with the space-join of the new sentences. -/
theorem C2_amended_only_setCurrentStory_clears (st : TMState) (story : String)
    (sentences : List String) :
    (TranslationManager.setCurrentStory st story).referenceTranslation = none ∧
    (TranslationManager.setCurrentSentences st sentences).referenceTranslation =
      st.referenceTranslation ∧
    (TranslationManager.setCurrentSentences st sentences).currentStory =
      some (String.intercalate " " sentences) :=
  ⟨rfl, rfl, rfl⟩

/-- Mutable state of the older `TranslationManager` revision, which has no
sentence list: the two fields set in its constructor. -/
structure LegacyTMState where
  currentStory : Option String
  referenceTranslation : Option String
deriving DecidableEq, Repr

namespace LegacyTranslationManager

/-- `processTranslation` of the older revision: identical logic over the
two-field state. -/
def processTranslation (gw : GeminiAPI) (st : LegacyTMState)
    (userTranslation sourceLanguage targetLanguage : String) :
    Except String TranslationResult × LegacyTMState × List GeminiCall :=
  if ¬ optTruthy st.currentStory then
    (.error "No story available for translation", st, [])
  else if (jsTrim userTranslation).length = 0 then
    (.error "Please enter your translation before submitting", st, [])
  else
    let story := st.currentStory.getD ""
    if ¬ optTruthy st.referenceTranslation then
      match gw.translateText story sourceLanguage targetLanguage with
      | .error e =>
          (.error ("Failed to process translation: " ++ e), st,
            [.translateText story sourceLanguage targetLanguage])
      | .ok ref =>
          let st' := { st with referenceTranslation := some ref }
          match gw.rateTranslation story (jsTrim userTranslation) ref sourceLanguage targetLanguage with
          | .error e =>
              (.error ("Failed to process translation: " ++ e), st',
                [.translateText story sourceLanguage targetLanguage,
                 .rateTranslation story (jsTrim userTranslation) ref sourceLanguage targetLanguage])
          | .ok fb =>
              (.ok ⟨fb, ref, (jsTrim userTranslation)⟩, st',
                [.translateText story sourceLanguage targetLanguage,
                 .rateTranslation story (jsTrim userTranslation) ref sourceLanguage targetLanguage])
    else
      let ref := st.referenceTranslation.getD ""
      match gw.rateTranslation story (jsTrim userTranslation) ref sourceLanguage targetLanguage with
      | .error e =>
          (.error ("Failed to process translation: " ++ e), st,
            [.rateTranslation story (jsTrim userTranslation) ref sourceLanguage targetLanguage])
      | .ok fb =>
          (.ok ⟨fb, ref, (jsTrim userTranslation)⟩, st,
            [.rateTranslation story (jsTrim userTranslation) ref sourceLanguage targetLanguage])

end LegacyTranslationManager

/-- C10: the two revisions of `processTranslation` are equivalent: started
from the same `currentStory` and cached `referenceTranslation`, with the
same user translation, language pair and gateway, both return the same
result, issue the same gateway calls, and agree on the final
`currentStory` and `referenceTranslation`; the sentence list of the newer
revision is untouched. -/
theorem C10_processTranslation_revisions_agree (gw : GeminiAPI)
    (story ref : Option String) (sentences : List String) (u src tgt : String) :
    (TranslationManager.processTranslation gw ⟨story, sentences, ref⟩ u src tgt).1 =
      (LegacyTranslationManager.processTranslation gw ⟨story, ref⟩ u src tgt).1 ∧
    (TranslationManager.processTranslation gw ⟨story, sentences, ref⟩ u src tgt).2.1.currentStory =
      (LegacyTranslationManager.processTranslation gw ⟨story, ref⟩ u src tgt).2.1.currentStory ∧
    (TranslationManager.processTranslation gw ⟨story, sentences, ref⟩ u src tgt).2.1.referenceTranslation =
      (LegacyTranslationManager.processTranslation gw ⟨story, ref⟩ u src tgt).2.1.referenceTranslation ∧
    (TranslationManager.processTranslation gw ⟨story, sentences, ref⟩ u src tgt).2.1.currentSentences =
      sentences ∧
    (TranslationManager.processTranslation gw ⟨story, sentences, ref⟩ u src tgt).2.2 =
      (LegacyTranslationManager.processTranslation gw ⟨story, ref⟩ u src tgt).2.2 := by
  unfold TranslationManager.processTranslation LegacyTranslationManager.processTranslation
  by_cases h1 : optTruthy story
  · by_cases h2 : (jsTrim u).length = 0
    · simp [h1, h2]
    · by_cases h3 : optTruthy ref
      · cases hr : gw.rateTranslation (story.getD "") (jsTrim u) (ref.getD "") src tgt <;>
          simp [h1, h2, h3, hr]
      · cases ht : gw.translateText (story.getD "") src tgt with
        | error e => simp [h1, h2, h3, ht]
        | ok refv =>
            cases hr : gw.rateTranslation (story.getD "") (jsTrim u) refv src tgt <;>
              simp [h1, h2, h3, ht, hr]
  · simp [h1]

namespace TranslationManager

/-- `processSentenceTranslations(sourceLanguage, targetLanguage)`: refuse
when there are no sentences; otherwise read one translation input per
sentence from the DOM (a missing element reads as the empty string, a
present one as its trimmed value) and request a single batched rating.
The manager state is never mutated. -/
def processSentenceTranslations (gw : GeminiAPI) (st : TMState)
    (domInput : Nat → Option String) (sourceLanguage targetLanguage : String) :
    Except String SentenceFeedbackResult × TMState × List GeminiCall :=
  if st.currentSentences.length = 0 then
    (.error "No sentences available for translation", st, [])
  else
    let userTranslations :=
      (List.range st.currentSentences.length).map fun i =>
        match domInput i with
        | none => ""
        | some v => jsTrim v
    match gw.rateSentenceTranslations st.currentSentences userTranslations
      sourceLanguage targetLanguage with
    | .error e =>
        (.error ("Failed to process translations: " ++ e), st,
          [.rateSentenceTranslations st.currentSentences userTranslations
            sourceLanguage targetLanguage])
    | .ok result =>
        (.ok result, st,
          [.rateSentenceTranslations st.currentSentences userTranslations
            sourceLanguage targetLanguage])

/-- `generateSentenceMiniLesson(userTranslations, ...)`: an absent or
empty attempts list fails with the no-input error before any gateway
call; otherwise the lesson request is issued. -/
def generateSentenceMiniLesson (gw : GeminiAPI)
    (userTranslations : Option (List String)) (sourceLanguage targetLanguage : String) :
    Except String MiniLessonResult × List GeminiCall :=
  match userTranslations with
  | none => (.error "No translations provided for mini lesson", [])
  | some ts =>
      if ts.length = 0 then
        (.error "No translations provided for mini lesson", [])
      else
        match gw.sentenceMiniLesson ts sourceLanguage targetLanguage with
        | .error e =>
            (.error ("Failed to generate lesson: " ++ e),
              [.sentenceMiniLesson ts sourceLanguage targetLanguage])
        | .ok l => (.ok l, [.sentenceMiniLesson ts sourceLanguage targetLanguage])

end TranslationManager

/-- C4 counterexample: with a gateway whose reference fetch succeeds and
whose feedback request then fails, `processTranslation` fails, yet the
session's cached `referenceTranslation` has changed from its value before
the call. -/
theorem C4_counterexample :
    (TranslationManager.processTranslation feedbackFailsGateway
        ⟨some "Una historia.", [], none⟩ "A story." "Spanish" "English").1 =
      .error "Failed to process translation: boom" ∧
    (TranslationManager.processTranslation feedbackFailsGateway
        ⟨some "Una historia.", [], none⟩ "A story." "Spanish" "English").2.1.referenceTranslation ≠
      (⟨some "Una historia.", [], none⟩ : TMState).referenceTranslation := by
  exact ⟨rfl, by decide⟩

/-- C4 (amended): `processSentenceTranslations` leaves the session state
unchanged (in particular on every gateway failure); `processTranslation`
leaves `currentStory` and `currentSentences` unchanged and leaves the
cached `referenceTranslation` unchanged, except that when the reference
fetch succeeds (and, in particular, the subsequent feedback request
fails) the fetched reference is cached. -/
theorem C4_amended_failure_keeps_state (gw : GeminiAPI) (st : TMState)
    (domInput : Nat → Option String) (u src tgt : String) :
    (TranslationManager.processSentenceTranslations gw st domInput src tgt).2.1 = st ∧
    (TranslationManager.processTranslation gw st u src tgt).2.1.currentStory =
      st.currentStory ∧
    (TranslationManager.processTranslation gw st u src tgt).2.1.currentSentences =
      st.currentSentences ∧
    ((TranslationManager.processTranslation gw st u src tgt).2.1.referenceTranslation =
        st.referenceTranslation ∨
      ∃ r, gw.translateText (st.currentStory.getD "") src tgt = .ok r ∧
        (TranslationManager.processTranslation gw st u src tgt).2.1.referenceTranslation =
          some r) := by
  refine ⟨?_, ?_⟩
  · unfold TranslationManager.processSentenceTranslations
    by_cases h : st.currentSentences.length = 0
    · simp [h]
    · cases hr : gw.rateSentenceTranslations st.currentSentences
        ((List.range st.currentSentences.length).map fun i =>
          match domInput i with
          | none => ""
          | some v => jsTrim v) src tgt <;> simp [h, hr]
  · unfold TranslationManager.processTranslation
    by_cases h1 : optTruthy st.currentStory
    · by_cases h2 : (jsTrim u).length = 0
      · simp [h1, h2]
      · by_cases h3 : optTruthy st.referenceTranslation
        · cases hr : gw.rateTranslation (st.currentStory.getD "") (jsTrim u)
            (st.referenceTranslation.getD "") src tgt <;> simp [h1, h2, h3, hr]
        · cases ht : gw.translateText (st.currentStory.getD "") src tgt with
          | error e => simp [h1, h2, h3, ht]
          | ok refv =>
              cases hr : gw.rateTranslation (st.currentStory.getD "") (jsTrim u) refv src tgt <;>
                simp [h1, h2, h3, ht, hr]
    · simp [h1]

/-- C7: `generateSentenceMiniLesson` with an absent or empty attempts list
fails with the no-input error and issues no gateway call; with a non-empty
list the lesson request is issued (exactly one gateway call). -/
theorem C7_sentence_lesson_requires_input (gw : GeminiAPI)
    (ts : Option (List String)) (src tgt : String) :
    ((ts = none ∨ ts = some []) →
      TranslationManager.generateSentenceMiniLesson gw ts src tgt =
        (.error "No translations provided for mini lesson", [])) ∧
    (∀ l, ts = some l → l ≠ [] →
      (TranslationManager.generateSentenceMiniLesson gw ts src tgt).2 =
        [.sentenceMiniLesson l src tgt]) := by
  constructor
  · rintro (rfl | rfl)
    · rfl
    · rfl
  · rintro l rfl hl
    unfold TranslationManager.generateSentenceMiniLesson
    have hlen : ¬ l.length = 0 := by
      simpa [List.length_eq_zero] using hl
    cases hr : gw.sentenceMiniLesson l src tgt <;> simp [hlen, hr]

/-- Witness for C7: the empty and a non-empty attempts list at a concrete
gateway. -/
theorem C7_witness :
    TranslationManager.generateSentenceMiniLesson demoGateway (some []) "Spanish" "English" =
      (.error "No translations provided for mini lesson", []) ∧
    (TranslationManager.generateSentenceMiniLesson demoGateway
        (some ["I eat bread."]) "Spanish" "English").2 =
      [.sentenceMiniLesson ["I eat bread."] "Spanish" "English"] :=
  ⟨(C7_sentence_lesson_requires_input demoGateway (some []) "Spanish" "English").1
      (Or.inr rfl),
   (C7_sentence_lesson_requires_input demoGateway (some ["I eat bread."])
      "Spanish" "English").2 ["I eat bread."] rfl (by decide)⟩

/-- One per-sentence reply of the language model inside a batched rating
response; the grade field may be omitted. -/
structure ModelSentenceReply where
  grade : Option String
  feedback : String
  referenceTranslation : String
deriving DecidableEq, Repr

/-- The grade `displaySentenceFeedback` shows for an entry: the entry's
grade if it is present and truthy, the default `C` otherwise
(`item.grade || 'C'`). -/
def displayedGrade : Option String → String
  | none => "C"
  | some g => if g = "" then "C" else g

/-- Modelled from the spec: helper of `rateSentenceBatch` building the
per-sentence feedback entries.  An entry whose user text is blank is
skipped; the others keep their sentence index and take grade, narrative
and reference translation from the batched model response. -/
def batchFeedbackItems (model : Nat → ModelSentenceReply) :
    Nat → List (String × String) → List SentenceFeedbackItem
  | _, [] => []
  | i, (orig, user) :: rest =>
      if jsTrim user = "" then batchFeedbackItems model (i + 1) rest
      else
        { sentenceIndex := i, original := orig, userTranslation := user,
          referenceTranslation := (model i).referenceTranslation,
          grade := (model i).grade, feedback := (model i).feedback } ::
          batchFeedbackItems model (i + 1) rest

/-- Modelled from the spec: the Gateway operation `rateSentenceBatch` (the
function behind `geminiAPI.rateSentenceTranslations`; `src/js/api/gemini.js`
is not among the embedded sources).  Entries whose user text is blank are
excluded from the per-sentence feedback but counted in the sentence total;
`translatedCount` is the number of non-blank entries; per-sentence grades
and reference translations come from the single batched model response. -/
def rateSentenceBatch (model : Nat → ModelSentenceReply) (overall : String)
    (originals userTexts : List String) : SentenceFeedbackResult :=
  let pairs := originals.zip userTexts
  { sentenceFeedback := batchFeedbackItems model 0 pairs
    overallFeedback := overall
    translatedCount := (pairs.filter fun p => !(jsTrim p.2 == "")).length
    totalSentences := pairs.length }

theorem batchFeedbackItems_length (model : Nat → ModelSentenceReply)
    (i : Nat) (pairs : List (String × String)) :
    (batchFeedbackItems model i pairs).length =
      (pairs.filter fun p => !(jsTrim p.2 == "")).length := by
  induction pairs generalizing i with
  | nil => rfl
  | cons hd tl ih =>
      cases hd with
      | mk orig user =>
          by_cases h : jsTrim user = ""
          · simp [batchFeedbackItems, List.filter_cons, h, ih]
          · simp [batchFeedbackItems, List.filter_cons, h, ih]

theorem batchFeedbackItems_mem (model : Nat → ModelSentenceReply)
    (i : Nat) (pairs : List (String × String)) :
    ∀ item ∈ batchFeedbackItems model i pairs, ¬ jsTrim item.userTranslation = "" := by
  induction pairs generalizing i with
  | nil => intro item hmem; simp [batchFeedbackItems] at hmem
  | cons hd tl ih =>
      cases hd with
      | mk orig user =>
          intro item hmem
          by_cases h : jsTrim user = ""
          · rw [batchFeedbackItems, if_pos h] at hmem
            exact ih _ item hmem
          · rw [batchFeedbackItems, if_neg h] at hmem
            rcases List.mem_cons.mp hmem with rfl | hmem'
            · simpa using h
            · exact ih _ item hmem'

theorem filter_zip_snd_length (originals userTexts : List String)
    (h : originals.length = userTexts.length) :
    ((originals.zip userTexts).filter fun p => !(jsTrim p.2 == "")).length =
      (userTexts.filter fun u => !(jsTrim u == "")).length := by
  induction originals generalizing userTexts with
  | nil =>
      cases userTexts with
      | nil => rfl
      | cons u us => simp at h
  | cons o os ih =>
      cases userTexts with
      | nil => simp at h
      | cons u us =>
          have h' : os.length = us.length := by simpa using h
          by_cases hb : jsTrim u = ""
          · simp [List.zip_cons_cons, List.filter_cons, hb, ih us h']
          · simp [List.zip_cons_cons, List.filter_cons, hb, ih us h']

/-- C3: for same-length `originals` and `userTexts`, `rateSentenceBatch`
counts every entry in the sentence total, excludes blank entries from the
per-sentence feedback, has `translatedCount` equal to the number of
non-blank entries (hence `translatedCount ≤ totalSentences`), and the
display layer grades an entry whose grade the model omitted as `C`; in
particular `originals = ["Hola", "Adiós"]`, `userTexts = ["Hello", ""]`
yields `totalSentences = 2`, `translatedCount = 1` and a single
per-sentence entry, referencing index 0. -/
theorem C3_rateSentenceBatch_blanks (model : Nat → ModelSentenceReply)
    (overall : String) (originals userTexts : List String)
    (h : originals.length = userTexts.length) :
    (rateSentenceBatch model overall originals userTexts).totalSentences =
      originals.length ∧
    (rateSentenceBatch model overall originals userTexts).translatedCount =
      (userTexts.filter fun u => !(jsTrim u == "")).length ∧
    (rateSentenceBatch model overall originals userTexts).translatedCount ≤
      (rateSentenceBatch model overall originals userTexts).totalSentences ∧
    (rateSentenceBatch model overall originals userTexts).sentenceFeedback.length =
      (rateSentenceBatch model overall originals userTexts).translatedCount ∧
    (∀ item ∈ (rateSentenceBatch model overall originals userTexts).sentenceFeedback,
      ¬ jsTrim item.userTranslation = "") ∧
    (∀ item ∈ (rateSentenceBatch model overall originals userTexts).sentenceFeedback,
      item.grade = none → displayedGrade item.grade = "C") ∧
    (rateSentenceBatch model overall ["Hola", "Adiós"] ["Hello", ""]).totalSentences = 2 ∧
    (rateSentenceBatch model overall ["Hola", "Adiós"] ["Hello", ""]).translatedCount = 1 ∧
    (rateSentenceBatch model overall ["Hola", "Adiós"]
        ["Hello", ""]).sentenceFeedback.length = 1 ∧
    ((rateSentenceBatch model overall ["Hola", "Adiós"] ["Hello", ""]).sentenceFeedback.map
      SentenceFeedbackItem.sentenceIndex) = [0] := by
  refine ⟨?_, ?_, ?_, ?_, ?_, ?_, rfl, rfl, rfl, rfl⟩
  · simp [rateSentenceBatch, List.length_zip, h]
  · simpa [rateSentenceBatch] using filter_zip_snd_length originals userTexts h
  · simpa [rateSentenceBatch] using
      List.length_filter_le (fun p => !(jsTrim p.2 == "")) (originals.zip userTexts)
  · simpa [rateSentenceBatch] using
      batchFeedbackItems_length model 0 (originals.zip userTexts)
  · simpa [rateSentenceBatch] using
      batchFeedbackItems_mem model 0 (originals.zip userTexts)
  · intro item _ hg
    simp [displayedGrade, hg]

/-- Witness for C3 at a concrete model response. -/
theorem C3_witness :
    (rateSentenceBatch (fun _ => ⟨none, "nice", "The reference."⟩) "Good overall"
        ["Hola", "Adiós"] ["Hello", ""]).totalSentences = 2 ∧
    (rateSentenceBatch (fun _ => ⟨none, "nice", "The reference."⟩) "Good overall"
        ["Hola", "Adiós"] ["Hello", ""]).translatedCount = 1 ∧
    (rateSentenceBatch (fun _ => ⟨none, "nice", "The reference."⟩) "Good overall"
        ["Hola", "Adiós"] ["Hello", ""]).sentenceFeedback.length = 1 ∧
    ((rateSentenceBatch (fun _ => ⟨none, "nice", "The reference."⟩) "Good overall"
        ["Hola", "Adiós"] ["Hello", ""]).sentenceFeedback.map
      SentenceFeedbackItem.sentenceIndex) = [0] := by
  have hc := C3_rateSentenceBatch_blanks (fun _ => ⟨none, "nice", "The reference."⟩)
    "Good overall" ["Hola", "Adiós"] ["Hello", ""] (by decide)
  exact ⟨hc.2.2.2.2.2.2.1, hc.2.2.2.2.2.2.2.1, hc.2.2.2.2.2.2.2.2.1, hc.2.2.2.2.2.2.2.2.2⟩

/-- A chat turn: sender role and message text. -/
structure ChatTurn where
  role : String
  message : String
deriving DecidableEq, Repr

/-- A translation attempt recorded in the chat context. -/
structure UserAttempt where
  sentenceIndex : Nat
  original : String
  translation : String
deriving DecidableEq, Repr

/-- The chat context snapshot built by `updateContextFromCurrentState`. -/
structure ChatContext where
  timestamp : Nat
  sourceLanguage : Option String
  targetLanguage : Option String
  currentStory : Option String
  sentences : List String
  userTranslations : List UserAttempt
  feedback : Option String
  miniLesson : Option String
deriving DecidableEq, Repr

/-- The DOM state read by the chat manager; `none` models a missing
element.  For the story output the pair carries its text content and
whether it has the `has-content` class; each sentence-container child
carries the original text node and the input value when those nodes
exist; for the feedback and lesson outputs the text of the rendered
markup stands in for both its `innerHTML` and its extracted text
content. -/
structure DomState where
  now : Nat
  sourceLang : Option String
  targetLang : Option String
  storyText : Option (String × Bool)
  sentencePairs : List (Option String × Option String)
  feedbackHtml : Option String
  lessonHtml : Option String

/-- Strip a leading `Sentence <digits>:<whitespace>` label from a
sentence-pair text (the replacement of `/^Sentence \d+:\s*/`). -/
def stripSentenceLabel (s : String) : String :=
  let cs := s.data
  let pre := "Sentence ".data
  if cs.take pre.length = pre then
    if ((cs.drop pre.length).takeWhile Char.isDigit).isEmpty then s
    else
      match (cs.drop pre.length).dropWhile Char.isDigit with
      | ':' :: rest => String.mk (rest.dropWhile isJsSpace)
      | _ => s
  else s

/-- The `forEach` of `updateContextFromCurrentState` over the sentence
container's children: a pair with both nodes present contributes its
original text (label stripped, trimmed) to the sentence list, plus a
translation attempt when the trimmed input value is non-empty; the index
counts all children. -/
def collectSentenceData :
    Nat → List (Option String × Option String) → List String × List UserAttempt
  | _, [] => ([], [])
  | i, (origNode, inputNode) :: rest =>
      let tail := collectSentenceData (i + 1) rest
      match origNode, inputNode with
      | some o, some v =>
          let originalText := jsTrim (stripSentenceLabel o)
          let userTranslation := jsTrim v
          (originalText :: tail.1,
            if userTranslation ≠ "" then
              ⟨i, originalText, userTranslation⟩ :: tail.2
            else tail.2)
      | _, _ => tail

namespace ChatManager

/-- `updateContextFromCurrentState`: rebuild the context snapshot from the
current DOM state. -/
def updateContextFromCurrentState (dom : DomState) : ChatContext :=
  { timestamp := dom.now
    sourceLanguage :=
      match dom.sourceLang, dom.targetLang with
      | some s, some _ => some s
      | _, _ => none
    targetLanguage :=
      match dom.sourceLang, dom.targetLang with
      | some _, some t => some t
      | _, _ => none
    currentStory :=
      match dom.storyText with
      | some (text, hasContent) =>
          if text ≠ "" && hasContent then some (jsTrim text) else none
      | none => none
    sentences := (collectSentenceData 0 dom.sentencePairs).1
    userTranslations := (collectSentenceData 0 dom.sentencePairs).2
    feedback :=
      match dom.feedbackHtml with
      | some h => if jsTrim h ≠ "" then some (jsTrim h) else none
      | none => none
    miniLesson :=
      match dom.lessonHtml with
      | some h => if jsTrim h ≠ "" then some (jsTrim h) else none
      | none => none }

/-- The numbered attempt lines of `formatContextForAI`. -/
def attemptLines : Nat → List UserAttempt → String
  | _, [] => ""
  | i, t :: rest =>
      toString (i + 1) ++ ". Original: \"" ++ t.original ++
        "\"\n   User translation: \"" ++ t.translation ++ "\"\n" ++
        attemptLines (i + 1) rest

/-- `formatContextForAI`: serialize the context, section by section; when
no section contributed anything beyond the header the result is `null`. -/
def formatContextForAI (ctx : Option ChatContext) : Option String :=
  match ctx with
  | none => none
  | some c =>
      let base := "CURRENT SESSION CONTEXT:\n\n"
      let s1 :=
        if optTruthy c.sourceLanguage && optTruthy c.targetLanguage then
          base ++ "Learning languages: " ++ c.sourceLanguage.getD "" ++ " → " ++
            c.targetLanguage.getD "" ++ "\n\n"
        else base
      let s2 :=
        if optTruthy c.currentStory then
          s1 ++ "STORY TO TRANSLATE:\n" ++ c.currentStory.getD "" ++ "\n\n"
        else s1
      let s3 :=
        if c.userTranslations.length > 0 then
          s2 ++ "USER'S TRANSLATION ATTEMPTS:\n" ++
            attemptLines 0 c.userTranslations ++ "\n"
        else s2
      let s4 :=
        if optTruthy c.feedback then
          s3 ++ "CURRENT FEEDBACK:\n" ++ c.feedback.getD "" ++ "\n\n"
        else s3
      let s5 :=
        if optTruthy c.miniLesson then
          s4 ++ "CURRENT MINI LESSON:\n" ++ c.miniLesson.getD "" ++ "\n\n"
        else s4
      if s5 = base then none
      else
        some (s5 ++
          "Please help the user based on their current learning session context above.")

end ChatManager

/-- State of `ChatManager`: the stored turn history and the turns shown in
the chat display. -/
structure ChatState where
  chatHistory : List ChatTurn
  displayed : List ChatTurn
deriving DecidableEq, Repr

namespace ChatManager

/-- `sendMessage(message)`: ignore blank input; otherwise show the user
turn, rebuild the context from the DOM, issue the chat request, and on
success show and record the reply, while on any gateway error show the
canned apology turn instead — the error is swallowed, never rethrown, and
nothing is stored in the history. -/
def sendMessage (gw : GeminiAPI) (dom : DomState) (st : ChatState)
    (message : String) : ChatState :=
  if (jsTrim message).length = 0 then st
  else
    let trimmedMessage := jsTrim message
    let ctx := formatContextForAI (some (updateContextFromCurrentState dom))
    match gw.chat trimmedMessage ctx with
    | .ok response =>
        { chatHistory :=
            st.chatHistory ++ [⟨"user", trimmedMessage⟩, ⟨"bot", response⟩]
          displayed :=
            st.displayed ++ [⟨"user", trimmedMessage⟩, ⟨"bot", response⟩] }
    | .error _ =>
        { st with
          displayed :=
            st.displayed ++ [⟨"user", trimmedMessage⟩,
              ⟨"bot", "Sorry, I encountered an error. Please try again."⟩] }

end ChatManager

/-- A DOM state with nothing rendered yet. -/
def emptyDom : DomState := ⟨0, none, none, none, [], none, none⟩

/-- C6: for a non-blank message, a gateway error during the chat call is
not propagated: `sendMessage` completes normally, the user turn is shown
followed by the canned apology bot turn, and the stored history is left
unchanged. -/
theorem C6_chat_error_swallowed (gw : GeminiAPI) (dom : DomState) (st : ChatState)
    (message e : String)
    (hm : ¬ (jsTrim message).length = 0)
    (hgw : gw.chat (jsTrim message)
        (ChatManager.formatContextForAI
          (some (ChatManager.updateContextFromCurrentState dom))) = .error e) :
    ChatManager.sendMessage gw dom st message =
      { chatHistory := st.chatHistory
        displayed := st.displayed ++ [⟨"user", jsTrim message⟩,
          ⟨"bot", "Sorry, I encountered an error. Please try again."⟩] } := by
  unfold ChatManager.sendMessage
  simp [hm, hgw]

/-- Witness for C6 at a concrete failing gateway. -/
theorem C6_witness :
    ChatManager.sendMessage feedbackFailsGateway emptyDom ⟨[], []⟩ "How do I say hello?" =
      { chatHistory := ([] : List ChatTurn)
        displayed := [⟨"user", "How do I say hello?"⟩,
          ⟨"bot", "Sorry, I encountered an error. Please try again."⟩] } :=
  C6_chat_error_swallowed feedbackFailsGateway emptyDom ⟨[], []⟩
    "How do I say hello?" "boom" (by decide) rfl

/-- C8: with no generated passage the snapshot's `currentStory` is absent;
when the DOM holds no meaningful session content at all, the serialized
context is `null`; and the chat send still completes normally, issuing the
request without session grounding. -/
theorem C8_no_passage_context (gw : GeminiAPI) (dom : DomState) (st : ChatState)
    (message response : String)
    (hstory : dom.storyText = none)
    (hsrc : dom.sourceLang = none)
    (hpairs : dom.sentencePairs = [])
    (hfb : dom.feedbackHtml = none)
    (hls : dom.lessonHtml = none)
    (hm : ¬ (jsTrim message).length = 0)
    (hgw : gw.chat (jsTrim message) none = .ok response) :
    (ChatManager.updateContextFromCurrentState dom).currentStory = none ∧
    ChatManager.formatContextForAI
      (some (ChatManager.updateContextFromCurrentState dom)) = none ∧
    ChatManager.sendMessage gw dom st message =
      { chatHistory := st.chatHistory ++ [⟨"user", jsTrim message⟩, ⟨"bot", response⟩]
        displayed := st.displayed ++ [⟨"user", jsTrim message⟩, ⟨"bot", response⟩] } := by
  have hctx : ChatManager.updateContextFromCurrentState dom =
      ⟨dom.now, none, none, none, [], [], none, none⟩ := by
    unfold ChatManager.updateContextFromCurrentState
    simp [hstory, hsrc, hpairs, hfb, hls, collectSentenceData]
  have hfmt : ChatManager.formatContextForAI
      (some (ChatManager.updateContextFromCurrentState dom)) = none := by
    rw [hctx]
    rfl
  refine ⟨by rw [hctx], hfmt, ?_⟩
  unfold ChatManager.sendMessage
  simp [hm, hfmt, hgw]

/-- Witness for C8: an empty DOM, a succeeding gateway. -/
theorem C8_witness :
    (ChatManager.updateContextFromCurrentState emptyDom).currentStory = none ∧
    ChatManager.formatContextForAI
      (some (ChatManager.updateContextFromCurrentState emptyDom)) = none ∧
    ChatManager.sendMessage demoGateway emptyDom ⟨[], []⟩ "Hi there" =
      { chatHistory := [⟨"user", "Hi there"⟩, ⟨"bot", "Hello!"⟩]
        displayed := [⟨"user", "Hi there"⟩, ⟨"bot", "Hello!"⟩] } :=
  C8_no_passage_context demoGateway emptyDom ⟨[], []⟩ "Hi there" "Hello!"
    rfl rfl rfl rfl rfl (by decide) rfl

/-- The model's lesson response after the JSON parse attempt: `none` when
the response is not valid JSON, otherwise an object each of whose
top-level fields may be missing. -/
structure LessonJson where
  title : Option String
  grammarFocus : Option String
  vocabulary : Option (List VocabItem)
  commonMistakes : Option (List MistakeItem)
  exercises : Option (List ExerciseItem)
deriving DecidableEq, Repr

/-- Modelled from the spec: the Gateway operation `generateLesson`
(`src/js/api/gemini.js` is not among the embedded sources).  On JSON-parse
failure or a missing required top-level field the raw model text becomes a
fallback plain-markdown lesson rather than an error; only a response
carrying all required fields yields a structured lesson.  The operation
always returns a lesson. -/
def generateLesson (raw : String) (parsed : Option LessonJson) : MiniLessonResult :=
  match parsed with
  | none => .fallback raw
  | some j =>
      match j.title, j.grammarFocus, j.vocabulary, j.commonMistakes, j.exercises with
      | some t, some g, some v, some m, some e => .structured ⟨t, g, v, m, e⟩
      | _, _, _, _, _ => .fallback raw

/-- The dispatch of `displayMiniLesson`: a lesson is rendered as a
structured mini lesson exactly when it is an object with a truthy `title`
(`typeof lesson === 'object' && lesson.title`); anything else takes the
plain-text fallback rendering path. -/
def rendersAsStructured : MiniLessonResult → Bool
  | .structured l => l.title ≠ ""
  | .fallback _ => false

/-- C5: a lesson response that is not valid JSON, or whose JSON lacks a
required top-level field, yields the fallback plain-markdown lesson
instead of failing; a structured lesson arises only from a response with
every required field present, and only a structured lesson is rendered as
a structured mini lesson. -/
theorem C5_generateLesson_fallback (raw : String) (parsed : Option LessonJson) :
    (parsed = none → generateLesson raw parsed = .fallback raw) ∧
    (∀ j, parsed = some j →
      (j.title = none ∨ j.grammarFocus = none ∨ j.vocabulary = none ∨
        j.commonMistakes = none ∨ j.exercises = none) →
      generateLesson raw parsed = .fallback raw) ∧
    (∀ l, generateLesson raw parsed = .structured l →
      ∃ j, parsed = some j ∧ j.title = some l.title ∧
        j.grammarFocus = some l.grammarFocus ∧ j.vocabulary = some l.vocabulary ∧
        j.commonMistakes = some l.commonMistakes ∧ j.exercises = some l.exercises) ∧
    (rendersAsStructured (generateLesson raw parsed) = true →
      ∃ l, generateLesson raw parsed = .structured l) := by
  cases parsed with
  | none =>
      refine ⟨fun _ => rfl, by simp, ?_, ?_⟩
      · intro l hl
        simp [generateLesson] at hl
      · intro hr
        simp [generateLesson, rendersAsStructured] at hr
  | some j =>
      obtain ⟨t, g, v, m, e⟩ := j
      rcases t with _ | t <;> rcases g with _ | g <;> rcases v with _ | v <;>
        rcases m with _ | m <;> rcases e with _ | e <;>
        simp [generateLesson, rendersAsStructured]

/-- Witness for C5: an unparseable response falls back, and the fallback
is not rendered as structured. -/
theorem C5_witness :
    generateLesson "Just some **markdown** advice." none =
      .fallback "Just some **markdown** advice." ∧
    rendersAsStructured (generateLesson "Just some **markdown** advice." none) = false :=
  ⟨(C5_generateLesson_fallback "Just some **markdown** advice." none).1 rfl, rfl⟩

/-- The preset story variants table (`storyVariants`); an unknown theme
maps to no entry. -/
def storyVariants (theme : String) : List String :=
  if theme = "daily_life" then
    ["morning routine", "grocery shopping", "commuting to work", "weekend activities",
     "cooking dinner", "cleaning house", "watching TV", "reading a book"]
  else if theme = "travel" then
    ["booking a hotel", "at the airport", "ordering food abroad", "asking for directions",
     "visiting museums", "taking photos", "meeting locals", "exploring markets"]
  else if theme = "food" then
    ["cooking a meal", "restaurant dining", "street food adventure", "baking desserts",
     "farmers market visit", "wine tasting", "cooking with friends", "trying new recipes"]
  else if theme = "friendship" then
    ["making new friends", "planning together", "helping each other", "celebrating birthdays",
     "weekend hangouts", "sharing secrets", "group activities", "supporting friends"]
  else if theme = "work" then
    ["job interview", "team meeting", "office lunch", "project deadline",
     "networking event", "presentation day", "remote working", "career change"]
  else if theme = "shopping" then
    ["clothing store visit", "electronics shopping", "market bargaining", "online ordering",
     "gift buying", "window shopping", "sales hunting", "returning items"]
  else if theme = "health" then
    ["doctor visit", "gym workout", "healthy cooking", "wellness routine",
     "mental health care", "medical checkup", "fitness goals", "stress management"]
  else if theme = "hobbies" then
    ["learning instrument", "painting class", "sports practice", "reading club",
     "photography walk", "gardening time", "crafting project", "game night"]
  else if theme = "family" then
    ["family dinner", "holiday gathering", "helping parents", "children playing",
     "family vacation", "visiting relatives", "family traditions", "home projects"]
  else if theme = "nature" then
    ["hiking adventure", "beach day", "camping trip", "garden work",
     "wildlife watching", "mountain climbing", "river rafting", "nature photography"]
  else if theme = "technology" then
    ["learning new app", "video call", "social media", "online learning",
     "tech support", "digital payments", "smart home", "cybersecurity"]
  else if theme = "education" then
    ["language class", "study group", "exam preparation", "university life",
     "skill development", "online courses", "library research", "tutoring session"]
  else []

/-- `getThemeDisplayName`: the display-name dictionary with the theme
itself as default. -/
def getThemeDisplayName (theme : String) : String :=
  if theme = "daily_life" then "Daily Life"
  else if theme = "travel" then "Travel & Adventure"
  else if theme = "food" then "Food & Cooking"
  else if theme = "friendship" then "Friendship & Relationships"
  else if theme = "work" then "Work & Career"
  else if theme = "shopping" then "Shopping & Money"
  else if theme = "health" then "Health & Wellness"
  else if theme = "hobbies" then "Hobbies & Entertainment"
  else if theme = "family" then "Family & Home"
  else if theme = "nature" then "Nature & Environment"
  else if theme = "technology" then "Technology & Modern Life"
  else if theme = "education" then "Education & Learning"
  else if theme = "custom" then "Custom Theme"
  else theme

/-- `getRandomVariant`, with the call to `Math.random` supplied as the
chosen index `pick` (the source draws
`Math.floor(Math.random() * variants.length)`). -/
def getRandomVariant (pick : Nat) (theme : String) : String :=
  if (storyVariants theme).length = 0 then "general situation"
  else (storyVariants theme).getD (pick % (storyVariants theme).length) ""

/-- Result shape of `validateCustomTheme`. -/
inductive ThemeValidation where
  | invalid (error : String)
  | valid (theme : String)
deriving DecidableEq, Repr

/-- `validateCustomTheme`: `none` models an absent or non-string input
(`!customTheme || typeof customTheme !== 'string'`); a string is trimmed
and its length checked against the 3..100 band. -/
def validateCustomTheme (customTheme : Option String) : ThemeValidation :=
  match customTheme with
  | none => .invalid "Custom theme is required"
  | some s =>
      if s = "" then .invalid "Custom theme is required"
      else if (jsTrim s).length < 3 then
        .invalid "Custom theme must be at least 3 characters"
      else if (jsTrim s).length > 100 then
        .invalid "Custom theme must be less than 100 characters"
      else .valid (jsTrim s)

/-- Parameters returned by `getStoryParams`. -/
structure StoryParams where
  theme : String
  variant : String
deriving DecidableEq, Repr

/-- `getStoryParams`: for the custom theme a validation failure is thrown
(`Except.error` carries the validation error); otherwise the display name
and a random variant are returned. -/
def getStoryParams (pick : Nat) (theme : String) (customTheme : Option String) :
    Except String StoryParams :=
  if theme = "custom" then
    match validateCustomTheme customTheme with
    | .invalid e => .error e
    | .valid t => .ok ⟨t, "custom story scenario"⟩
  else
    .ok ⟨getThemeDisplayName theme, getRandomVariant pick theme⟩

/-- C9: `validateCustomTheme` succeeds exactly on string inputs whose
trimmed length lies between 3 and 100, returning the trimmed input as the
theme; on any other input it reports an error, and `getStoryParams` with
the `custom` theme turns that error into a thrown error instead of
returning parameters. -/
theorem C9_validateCustomTheme_band (input : Option String) (pick : Nat) :
    ((∃ t, validateCustomTheme input = .valid t) ↔
      ∃ s, input = some s ∧ 3 ≤ (jsTrim s).length ∧ (jsTrim s).length ≤ 100) ∧
    (∀ s, input = some s → 3 ≤ (jsTrim s).length → (jsTrim s).length ≤ 100 →
      validateCustomTheme input = .valid (jsTrim s)) ∧
    (∀ e, validateCustomTheme input = .invalid e →
      getStoryParams pick "custom" input = .error e) := by
  have hvalid : ∀ s : String, 3 ≤ (jsTrim s).length → (jsTrim s).length ≤ 100 →
      validateCustomTheme (some s) = .valid (jsTrim s) := by
    intro s h3 h100
    have hs : ¬ s = "" := by
      intro h
      subst h
      exact absurd h3 (by decide)
    simp only [validateCustomTheme]
    rw [if_neg hs, if_neg (by omega), if_neg (by omega)]
  refine ⟨⟨?_, ?_⟩, ?_, ?_⟩
  · rintro ⟨t, ht⟩
    cases input with
    | none => simp [validateCustomTheme] at ht
    | some s =>
        refine ⟨s, rfl, ?_, ?_⟩ <;>
        · by_cases hs : s = ""
          · subst hs
            simp [validateCustomTheme] at ht
          · by_cases h3 : (jsTrim s).length < 3
            · simp [validateCustomTheme, hs, h3] at ht
            · by_cases h100 : (jsTrim s).length > 100
              · simp [validateCustomTheme, hs, h3, h100] at ht
              · omega
  · rintro ⟨s, rfl, h3, h100⟩
    exact ⟨jsTrim s, hvalid s h3 h100⟩
  · rintro s rfl h3 h100
    exact hvalid s h3 h100
  · intro e he
    simp [getStoryParams, he]

/-- Witness for C9: a valid input inside the band and an invalid one below
it. -/
theorem C9_witness :
    validateCustomTheme (some "  dragons at the bakery  ") =
      .valid "dragons at the bakery" ∧
    getStoryParams 0 "custom" (some "ab") =
      .error "Custom theme must be at least 3 characters" := by
  refine ⟨?_, ?_⟩
  · exact (C9_validateCustomTheme_band (some "  dragons at the bakery  ") 0).2.1
      "  dragons at the bakery  " rfl (by decide) (by decide)
  · exact (C9_validateCustomTheme_band (some "ab") 0).2.2
      "Custom theme must be at least 3 characters" (by decide)
